import Mathlib

/-!
Verification development for the anibot ingest-and-publish engine.

The Python sources are shallowly embedded:

* JSON-like upstream records (`dict` values flowing through the Kodik client
  and the normalizer) become the inductive `Val`; Python truthiness, `dict.get`,
  `or`, `int(...)`, `float(...)`, `str(...)` become explicit helpers.
* `app/services/normalizer.py` becomes pure functions producing a `Bundle`;
  a Python exception is modelled as `Option.none`.
* `app/integrations/kodik.py` paging (`fetch_full_list` / `fetch_delta`) runs
  against an abstract paged feed; the pair returned also counts fetched pages.
* The `RateLimiter.acquire` coroutine and the `OrderedUploadQueue` become
  small-step transition relations with explicit reachability.
* `app/db/repo.py` upsert guards and `app/services/ingest.py` batch
  persistence run against an explicit session model in which a failed SQL
  statement aborts the enclosing transaction (PostgreSQL semantics).
* `app/services/downloader.py` error mapping and
  `app/common/async_utils.py` `retry_async` become functions over oracles.
-/

/-- JSON-like Python value as it flows through the pipeline.  Booleans and
floats never occur in the records the engine reads, so they are omitted. -/
inductive Val where
  | null
  | str (s : String)
  | int (n : Int)
  | arr (xs : List Val)
  | obj (kvs : List (String × Val))
deriving Repr

mutual

/-- Python `==` on `Val` (used for `in` membership tests). -/
def Val.beq : Val → Val → Bool
  | .null, .null => true
  | .str a, .str b => a == b
  | .int a, .int b => a == b
  | .arr a, .arr b => Val.beqList a b
  | .obj a, .obj b => Val.beqKvs a b
  | _, _ => false

def Val.beqList : List Val → List Val → Bool
  | [], [] => true
  | a :: as, b :: bs => Val.beq a b && Val.beqList as bs
  | _, _ => false

def Val.beqKvs : List (String × Val) → List (String × Val) → Bool
  | [], [] => true
  | (k, v) :: as, (l, w) :: bs => k == l && Val.beq v w && Val.beqKvs as bs
  | _, _ => false

end

/-- Python truthiness of a value (`if value:`). -/
def Val.truthy : Val → Bool
  | .null => false
  | .str s => !(s == "")
  | .int n => !(n == 0)
  | .arr xs => !xs.isEmpty
  | .obj kvs => !kvs.isEmpty

/-- Python `d.get(k)`: first binding of `k`, `None` when absent.  The engine
only calls `.get` on dicts; on non-dicts this helper returns `null` and the
callers below guard the cases where CPython would raise instead. -/
def Val.get : Val → String → Val
  | .obj kvs, k =>
    match kvs.find? (fun p => p.1 == k) with
    | some p => p.2
    | none => .null
  | _, _ => .null

/-- Python `d.get(k, default)`. -/
def Val.getD : Val → String → Val → Val
  | .obj kvs, k, dflt =>
    match kvs.find? (fun p => p.1 == k) with
    | some p => p.2
    | none => dflt
  | _, _, dflt => dflt

/-- Python `a or b`. -/
def pyOr (a b : Val) : Val := if a.truthy then a else b

/-- Python `int(s)` on a string: optional sign then decimal digits
(whitespace padding and `_` grouping are never present in catalog keys). -/
def parsePyInt (s : String) : Option Int :=
  let core : List Char → Bool → Option Int := fun ds neg =>
    if ds.isEmpty || !ds.all Char.isDigit then none
    else
      let n : Nat := ds.foldl (fun acc c => acc * 10 + (c.toNat - 48)) 0
      some (if neg then -(n : Int) else (n : Int))
  match s.data with
  | '-' :: rest => core rest true
  | '+' :: rest => core rest false
  | rest => core rest false

/-- `KodikNormalizer._safe_int(value, default)`: `None` maps to the default,
ints pass through, strings go through `int(...)`, and any `TypeError` or
`ValueError` falls back to the default. -/
def safeInt (v : Val) (dflt : Option Int) : Option Int :=
  match v with
  | .null => dflt
  | .int n => some n
  | .str s =>
    match parsePyInt s with
    | some n => some n
    | none => dflt
  | _ => dflt

/-- Python `int(value)` where an exception would propagate (`none`). -/
def pyIntStrict (v : Val) : Option Int :=
  match v with
  | .int n => some n
  | .str s => parsePyInt s
  | _ => none

/-- Python `float(s)` for the simple decimal literals the catalog carries,
as an exact rational (IEEE rounding is irrelevant at this granularity). -/
def parsePyFloat (s : String) : Option ℚ :=
  let digitsVal : List Char → Nat := fun ds =>
    ds.foldl (fun acc c => acc * 10 + (c.toNat - 48)) 0
  let core : List Char → Bool → Option ℚ := fun ds neg =>
    match ds.span (fun c => !(c == '.')) with
    | (intPart, []) =>
      if intPart.isEmpty || !intPart.all Char.isDigit then none
      else
        let q : ℚ := (digitsVal intPart : ℚ)
        some (if neg then -q else q)
    | (intPart, _ :: fracPart) =>
      if (intPart.isEmpty && fracPart.isEmpty) ||
          !intPart.all Char.isDigit || !fracPart.all Char.isDigit then none
      else
        let q : ℚ :=
          (digitsVal intPart : ℚ) +
            (digitsVal fracPart : ℚ) / ((10 : ℚ) ^ fracPart.length)
        some (if neg then -q else q)
  match s.data with
  | '-' :: rest => core rest true
  | '+' :: rest => core rest false
  | rest => core rest false

/-- `KodikNormalizer._safe_float`: `None` and coercion failures map to `None`. -/
def safeFloat (v : Val) : Option ℚ :=
  match v with
  | .null => none
  | .int n => some (n : ℚ)
  | .str s => parsePyFloat s
  | _ => none

/-- Python `str(value)` for the values that reach f-strings in the
normalizer (identifiers are strings or ints there; the container cases are
never exercised on the pipeline's data). -/
def Val.pyStr : Val → String
  | .null => "None"
  | .str s => s
  | .int n => toString n
  | .arr _ => "[...]"
  | .obj _ => "\x7b...\x7d"

/-! ## Normalizer (`app/services/normalizer.py`) -/

/-- `NormalizedEpisode` dataclass. -/
structure NormalizedEpisode where
  id : String
  animeId : Val
  translationId : Int
  number : Int
  season : Int := 1
  title : Val := .null
  duration : Option Int := none
  previewImage : Val := .null
deriving Repr

/-- `f"{anime_id}:{translation_id}:{ep_num}"`. -/
def episodeIdOf (animeId : Val) (translationId epNum : Int) : String :=
  animeId.pyStr ++ ":" ++ toString translationId ++ ":" ++ toString epNum

/-- The `anime` dict built by `_build_anime_dict`, with its literal keys as
fields. -/
structure AnimeDict where
  id : Val
  title : Val
  titleOrig : Val
  altTitles : List Val
  year : Val
  posterUrl : Val
  description : Val
  genres : Val
  ratingShiki : Option ℚ
  ratingKinopoisk : Option ℚ
  ratingImdb : Option ℚ
  episodesTotal : Val
  externalIds : List (String × Val)
  blockedCountries : Val
  status : Val
deriving Repr

/-- The `translation` dict built by `_build_translation_dict`. -/
structure TranslationDict where
  id : Int
  title : Val
  type : Val
deriving Repr

/-- The `anime_translation` dict built by `_build_anime_translation_dict`. -/
structure AnimeTranslationDict where
  animeId : Val
  translationId : Int
  episodesAvailable : Val
  lastEpisode : Val
deriving Repr

/-- `NormalizedAnimeBundle`. -/
structure Bundle where
  anime : AnimeDict
  translation : TranslationDict
  animeTranslation : AnimeTranslationDict
  episodes : List NormalizedEpisode
deriving Repr

/-- `KodikNormalizer.ALT_TITLE_KEYS`. -/
def ALT_TITLE_KEYS : List String :=
  ["title_orig", "other_title", "other_titles", "other_titles_en",
   "other_titles_jp"]

/-- Set insertion as Python `set.add`/`set.update` membership (by `==`);
CPython's set iteration order is unspecified, so downstream facts about
`alt_titles` are stated by membership only. -/
def setAdd (acc : List Val) (v : Val) : List Val :=
  if acc.any (fun w => Val.beq w v) then acc else acc ++ [v]

/-- `_collect_alt_titles`: list values contribute their truthy elements,
truthy scalars contribute themselves. -/
def collectAltTitles (materialData : Val) : List Val :=
  ALT_TITLE_KEYS.foldl
    (fun acc key =>
      match materialData.get key with
      | .arr xs => xs.foldl (fun a t => if t.truthy then setAdd a t else a) acc
      | v => if v.truthy then setAdd acc v else acc)
    []

/-- `KodikNormalizer.STATUS_MAP`. -/
def STATUS_MAP : List (String × String) :=
  [("ongoing", "ongoing"), ("released", "released"),
   ("announced", "announced"), ("finished", "released"),
   ("airing", "ongoing")]

/-- `_build_anime_dict`. -/
def buildAnimeDict (animeId title titleOrig year : Val)
    (materialData additional : Val) (externalIds : List (String × Val))
    (lastEpisode : Val) : AnimeDict :=
  let rawStatus :=
    pyOr (pyOr (materialData.get "anime_status") (materialData.get "status"))
      (additional.get "status")
  let status : Val :=
    if rawStatus.truthy then
      match STATUS_MAP.find? (fun p => p.1 == rawStatus.pyStr.toLower) with
      | some p => .str p.2
      | none => .null
    else .null
  { id := animeId
    title := title
    titleOrig := titleOrig
    altTitles := collectAltTitles materialData
    year := year
    posterUrl :=
      pyOr (materialData.get "poster_url") (materialData.get "anime_poster_url")
    description :=
      pyOr (materialData.get "description")
        (materialData.get "anime_description")
    genres := pyOr (materialData.get "genres") (materialData.get "anime_genres")
    ratingShiki := safeFloat (materialData.get "shikimori_rating")
    ratingKinopoisk := safeFloat (materialData.get "kinopoisk_rating")
    ratingImdb := safeFloat (materialData.get "imdb_rating")
    episodesTotal := pyOr (additional.get "episodes_count") lastEpisode
    externalIds := externalIds.filter (fun p => p.2.truthy)
    blockedCountries := additional.get "blocked_countries"
    status := status }

/-- `_build_translation_dict`. -/
def buildTranslationDict (translationId : Int) (translationInfo : Val) :
    TranslationDict :=
  { id := translationId
    title := translationInfo.get "title"
    type := translationInfo.get "type" }

/-- `_build_anime_translation_dict`. -/
def buildAnimeTranslationDict (animeId : Val) (translationId : Int)
    (episodesCount lastEpisode : Val) : AnimeTranslationDict :=
  { animeId := animeId
    translationId := translationId
    episodesAvailable := episodesCount
    lastEpisode := lastEpisode }

/-- `_generate_episodes_from_count`: `range(1, int(total) + 1)` in season 1
with null metadata; falsy totals give no episodes; a total on which
`int(...)` raises aborts normalization (`none`). -/
def generateEpisodesFromCount (animeId : Val) (translationId : Int)
    (total : Val) : Option (List NormalizedEpisode) :=
  if !total.truthy then some []
  else
    match pyIntStrict total with
    | none => none
    | some n =>
      some ((List.range n.toNat).map fun i =>
        let epNum : Int := (i : Int) + 1
        { id := episodeIdOf animeId translationId epNum
          animeId := animeId
          translationId := translationId
          number := epNum })

/-- `_extract_episodes_dict`: unwrap a nested `{"episodes": {...}}` level,
non-dict season data contributes nothing. -/
def extractEpisodesDict (seasonData : Val) : List (String × Val) :=
  match seasonData with
  | .obj kvs =>
    match (Val.obj kvs).get "episodes" with
    | .obj inner => inner
    | _ => kvs
  | _ => []

/-- `_parse_episode_data`. -/
def parseEpisodeData (epData : Val) : Val × Option Int × Val :=
  match epData with
  | .obj _ =>
    (pyOr (epData.get "title") (epData.get "name"),
      safeInt (epData.get "duration") none,
      epData.get "preview")
  | _ => (.null, none, .null)

/-- `_extract_episodes` (used on the `Response.Element` path): walk the
`seasons` map, keep only integer-parseable episode keys, and fall back to
synthesis when the walk yields no episodes and the total is truthy.  A truthy
non-dict `seasons` value makes `.items()` raise (`none`). -/
def extractEpisodes (rawData : Val) (animeId : Val) (translationId : Int)
    (fallbackTotal : Val) : Option (List NormalizedEpisode) :=
  match pyOr (rawData.get "seasons") (.obj []) with
  | .obj seasonKvs =>
    let eps :=
      seasonKvs.foldl
        (fun acc p =>
          let seasonNum := (safeInt (.str p.1) (some 1)).getD 1
          (extractEpisodesDict p.2).foldl
            (fun acc2 q =>
              match safeInt (.str q.1) none with
              | none => acc2
              | some epNum =>
                let parsed := parseEpisodeData q.2
                acc2 ++
                  [{ id := episodeIdOf animeId translationId epNum
                     animeId := animeId
                     translationId := translationId
                     number := epNum
                     season := seasonNum
                     title := parsed.1
                     duration := parsed.2.1
                     previewImage := parsed.2.2 }])
            acc)
        []
    if eps.isEmpty then
      if fallbackTotal.truthy then
        generateEpisodesFromCount animeId translationId fallbackTotal
      else some []
    else some eps
  | _ => none

/-- `_normalize_dict`: note that its `episodes` come from
`_generate_episodes_from_count`, never from the raw `seasons` map. -/
def normalizeDict (raw : Val) : Option Bundle := do
  let animeId := pyOr (pyOr (raw.get "id") (raw.get "kodik_id")) (raw.get "link")
  let translationInfo := pyOr (raw.get "translation") (.obj [])
  match translationInfo with
  | .obj _ =>
    let translationId := (safeInt (translationInfo.get "id") (some 0)).getD 0
    let materialData := pyOr (raw.get "material_data") (.obj [])
    let additional := pyOr (raw.get "additional_data") (.obj [])
    match materialData, additional with
    | .obj _, .obj _ =>
      let fallbackTotal := pyOr (additional.get "episodes_count") (raw.get "last_episode")
      let eps ← generateEpisodesFromCount animeId translationId fallbackTotal
      pure
        { anime :=
            buildAnimeDict animeId (raw.get "title") (raw.get "title_orig")
              (raw.get "year") materialData additional
              [("shikimori", raw.get "shikimori_id"),
               ("kinopoisk", raw.get "kinopoisk_id"),
               ("imdb", raw.get "imdb_id")]
              (raw.get "last_episode")
          translation := buildTranslationDict translationId translationInfo
          animeTranslation :=
            buildAnimeTranslationDict animeId translationId fallbackTotal
              (raw.get "last_episode")
          episodes := eps }
    | _, _ => none
  | _ => none

/-- The fields of a `Response.Element` the normalizer reads (`raw_data` holds
`additional_data` and `seasons`; `materialData` is `_material_data.__dict__`
or `{}`). -/
structure KodikElement where
  id : Val
  title : Val
  titleOrig : Val
  year : Val
  lastEpisode : Val
  episodesCount : Val
  shikimoriId : Val
  kinopoiskId : Val
  imdbId : Val
  translation : Val
  rawData : Val
  materialData : Val
deriving Repr

/-- `_to_dict`: falsy values and non-dicts without a `__dict__` become `{}`. -/
def toDictVal (v : Val) : Val :=
  if !v.truthy then .obj []
  else
    match v with
    | .obj kvs => .obj kvs
    | _ => .obj []

/-- `_normalize_element`. -/
def normalizeElement (item : KodikElement) : Option Bundle := do
  let rawData := pyOr item.rawData (.obj [])
  let materialData := item.materialData
  let additional := rawData.getD "additional_data" (.obj [])
  match additional with
  | .obj _ =>
    let translationInfo := toDictVal item.translation
    let translationId := (safeInt (translationInfo.get "id") (some 0)).getD 0
    let eps ←
      extractEpisodes rawData item.id translationId
        (pyOr item.episodesCount item.lastEpisode)
    pure
      { anime :=
          buildAnimeDict item.id item.title item.titleOrig item.year
            materialData additional
            [("shikimori", item.shikimoriId), ("kinopoisk", item.kinopoiskId),
             ("imdb", item.imdbId)]
            item.lastEpisode
        translation := buildTranslationDict translationId translationInfo
        animeTranslation :=
          buildAnimeTranslationDict item.id translationId
            (pyOr (additional.get "episodes_count") item.lastEpisode)
            item.lastEpisode
        episodes := eps }
  | _ => none

/-- `normalize`'s dispatch: `Response.Element` versus `dict` input. -/
inductive RawInput where
  | element (e : KodikElement)
  | dict (raw : Val)

/-- `KodikNormalizer.normalize` / `normalize_kodik_item`. -/
def normalizeKodikItem : RawInput → Option Bundle
  | .element e => normalizeElement e
  | .dict raw => normalizeDict raw

/-! ## Catalog client paging (`app/integrations/kodik.py`) -/

/-- One raw catalog item as the client sees it: an opaque payload plus the
`updated_at` field `_get_updated_at` reads (`none` models a missing key,
which that helper turns into `""`). -/
structure CatalogItem where
  name : String
  updatedAt : Option String
deriving Repr, DecidableEq

/-- `KodikClient._get_updated_at`. -/
def getUpdatedAt (it : CatalogItem) : String := it.updatedAt.getD ""

/-- Python string `<=` (code-point lexicographic, shorter prefix first). -/
def pyStrLeAux : List Char → List Char → Bool
  | [], _ => true
  | _ :: _, [] => false
  | a :: as, b :: bs =>
    a.toNat < b.toNat || (a.toNat == b.toNat && pyStrLeAux as bs)

def pyStrLe (s t : String) : Bool := pyStrLeAux s.data t.data

/-- The paged feed the server serves for a given (already clamped) page
size: the list of page batches, in order.  The cursor of a page is present
exactly when further pages exist. -/
def PagedFeed : Type := Int → List (List CatalogItem)

/-- The truthy guard `if max_pages and page_count >= max_pages` of the
fetch loop (`max_pages=0` is falsy, hence unlimited). -/
def maxPagesReached (maxPages : Option Nat) (pageCount : Nat) : Bool :=
  match maxPages with
  | none => false
  | some m => !(m == 0) && decide (m ≤ pageCount)

/-- The `while True` page loop of `fetch_full_list`: always fetches the
first page, stops on a missing cursor or on the `max_pages` guard, and
returns the accumulated items with the number of pages fetched. -/
def fetchPagesAux (maxPages : Option Nat) :
    List (List CatalogItem) → Nat → List CatalogItem × Nat
  | [], pageCount => ([], pageCount + 1)
  | batch :: rest, pageCount =>
    let pc := pageCount + 1
    if rest.isEmpty then (batch, pc)
    else if maxPagesReached maxPages pc then (batch, pc)
    else
      let more := fetchPagesAux maxPages rest pc
      (batch ++ more.1, more.2)

/-- `KodikClient.fetch_full_list`: clamps `limit_per_page` with
`max(1, min(100, limit_per_page))` before the first request and then pages
the feed.  Returns (items, pages fetched). -/
def fetchFullList (server : PagedFeed) (limitPerPage : Int)
    (maxPages : Option Nat) : List CatalogItem × Nat :=
  fetchPagesAux maxPages (server (max 1 (min 100 limitPerPage))) 0

/-- `KodikClient.fetch_delta`: fetches via `fetch_full_list` and filters
client-side, keeping items whose `updated_at` string is `>=` the cutoff. -/
def fetchDelta (server : PagedFeed) (updatedSince : String)
    (limitPerPage : Int) (maxPages : Option Nat) : List CatalogItem × Nat :=
  let full := fetchFullList server limitPerPage maxPages
  (full.1.filter (fun it => pyStrLe updatedSince (getUpdatedAt it)), full.2)

/-! ## Rate limiter (`RateLimiter.acquire`, `app/integrations/kodik.py`)

`acquire` is modelled as a small-step machine over the suspension points of
the coroutine.  The whole body runs inside `async with self._lock`, so the
lock is taken at entry and released only when the token is consumed. -/

/-- Program counter of one `acquire` call: before the `async with`, at the
refill-and-check of the `while` loop, suspended in `asyncio.sleep`, or done. -/
inductive RLPc where
  | idle
  | refillCheck
  | sleeping
  | done
deriving DecidableEq, Repr

/-- Shared limiter state plus the program counter of every caller. -/
structure RLState where
  rate : ℚ
  capacity : ℚ
  tokens : ℚ
  lockHeld : Option Nat
  pc : Nat → RLPc

/-- `RateLimiter.__init__`: full bucket, lock free, all callers idle. -/
def rlInit (rate capacity : ℚ) : RLState :=
  { rate := rate, capacity := capacity, tokens := capacity,
    lockHeld := none, pc := fun _ => .idle }

/-- `_refill`: `tokens = min(capacity, tokens + elapsed * rate)`. -/
def rlRefill (s : RLState) (elapsed : ℚ) : ℚ :=
  min s.capacity (s.tokens + elapsed * s.rate)

/-- One interleaving step of concurrent `acquire` calls.  `lock` enters the
`async with self._lock` block; `checkPass`/`checkSleep` perform a `_refill`
followed by the `while self._tokens < 1` test (consuming a token and
releasing the lock on pass, suspending in `asyncio.sleep` otherwise — with
the lock still held, as in the source); `wake` returns from the sleep to the
re-check. -/
inductive RLStep : RLState → RLState → Prop
  | lock (s : RLState) (i : Nat) (hpc : s.pc i = .idle)
      (hfree : s.lockHeld = none) :
      RLStep s { s with lockHeld := some i,
                        pc := fun j => if j = i then .refillCheck else s.pc j }
  | checkPass (s : RLState) (i : Nat) (elapsed : ℚ) (hpc : s.pc i = .refillCheck)
      (hlock : s.lockHeld = some i) (he : 0 ≤ elapsed)
      (hok : 1 ≤ rlRefill s elapsed) :
      RLStep s { s with tokens := rlRefill s elapsed - 1,
                        lockHeld := none,
                        pc := fun j => if j = i then .done else s.pc j }
  | checkSleep (s : RLState) (i : Nat) (elapsed : ℚ) (hpc : s.pc i = .refillCheck)
      (hlock : s.lockHeld = some i) (he : 0 ≤ elapsed)
      (hlow : rlRefill s elapsed < 1) :
      RLStep s { s with tokens := rlRefill s elapsed,
                        pc := fun j => if j = i then .sleeping else s.pc j }
  | wake (s : RLState) (i : Nat) (hpc : s.pc i = .sleeping) :
      RLStep s { s with
                   pc := fun j => if j = i then .refillCheck else s.pc j }

/-- States reachable from a freshly constructed limiter. -/
def RLReachable (rate capacity : ℚ) (s : RLState) : Prop :=
  Relation.ReflTransGen RLStep (rlInit rate capacity) s

/-! ## Ordered upload queue (`app/integrations/telegram_uploader.py`)

`OrderedUploadQueue` keeps one `asyncio.Queue` (FIFO) and one dedicated
worker task per `(anime_id, translation_id)` key; the worker consumes one
task at a time and awaits `_process_task` to completion before taking the
next.  The chat backend is modelled as assigning strictly increasing message
ids (`send_video` returns `msg.id` from a monotone counter); `mark_media`
records that id.  A failing `_process_task` records no id but still removes
the task from the queue (no retry by the queue). -/

/-- `EpisodeUploadTask`, reduced to the fields the ordering argument uses. -/
structure UploadTaskM where
  episodeId : String
  number : Int
deriving DecidableEq, Repr

/-- `task.queue_key`: `(anime_id, translation_id)`. -/
abbrev QueueKey := String × Int

/-- Queue system state: per-key pending FIFO, per-key log of processed
tasks with the recorded message id (`none` when the upload failed), the
per-key enqueue history, and the backend's next message id. -/
structure QueueState where
  pending : QueueKey → List UploadTaskM
  processed : QueueKey → List (UploadTaskM × Option Nat)
  enqueued : QueueKey → List UploadTaskM
  nextMsgId : Nat

/-- Fresh `OrderedUploadQueue`. -/
def qInit : QueueState :=
  { pending := fun _ => [], processed := fun _ => [],
    enqueued := fun _ => [], nextMsgId := 0 }

/-- One step of the queue system.  `enqueue` appends to the key's FIFO
(`asyncio.Queue.put`).  `processOk` lets the key's worker complete the head
task: `send_video` returns the next message id and `mark_media` records it.
`processFailAfterSend` models a failure after `send_video` (e.g. in
`mark_media`): a message id was consumed but none is recorded.
`processFailBeforeSend` models a failure before `send_video` (missing file,
chat validation): no id is consumed.  In every case the worker moves on;
the queue performs no retry. -/
inductive QStep : QueueState → QueueState → Prop
  | enqueue (s : QueueState) (k : QueueKey) (t : UploadTaskM) :
      QStep s { s with
        pending := fun k2 => if k2 = k then s.pending k ++ [t] else s.pending k2
        enqueued := fun k2 => if k2 = k then s.enqueued k ++ [t] else s.enqueued k2 }
  | processOk (s : QueueState) (k : QueueKey) (t : UploadTaskM)
      (rest : List UploadTaskM) (hq : s.pending k = t :: rest) :
      QStep s { s with
        pending := fun k2 => if k2 = k then rest else s.pending k2
        processed := fun k2 =>
          if k2 = k then s.processed k ++ [(t, some s.nextMsgId)]
          else s.processed k2
        nextMsgId := s.nextMsgId + 1 }
  | processFailAfterSend (s : QueueState) (k : QueueKey) (t : UploadTaskM)
      (rest : List UploadTaskM) (hq : s.pending k = t :: rest) :
      QStep s { s with
        pending := fun k2 => if k2 = k then rest else s.pending k2
        processed := fun k2 =>
          if k2 = k then s.processed k ++ [(t, none)] else s.processed k2
        nextMsgId := s.nextMsgId + 1 }
  | processFailBeforeSend (s : QueueState) (k : QueueKey) (t : UploadTaskM)
      (rest : List UploadTaskM) (hq : s.pending k = t :: rest) :
      QStep s { s with
        pending := fun k2 => if k2 = k then rest else s.pending k2
        processed := fun k2 =>
          if k2 = k then s.processed k ++ [(t, none)] else s.processed k2 }

/-- Queue states reachable from a fresh queue. -/
def QReachable (s : QueueState) : Prop :=
  Relation.ReflTransGen QStep qInit s

/-- The message ids recorded for a key, in processing order. -/
def recordedIds (s : QueueState) (k : QueueKey) : List Nat :=
  (s.processed k).filterMap Prod.snd

/-! ## Repository upsert guards (`app/db/repo.py`)

The relevant behaviour of `upsert_translation` and
`upsert_anime_translation` is the input-hygiene guard plus the
`ON CONFLICT DO UPDATE` merge; both are modelled against explicit tables. -/

/-- A `translation` row. -/
structure TranslationRow where
  id : Val
  title : Val
  type : Val
deriving Repr

/-- An `anime_translation` row. -/
structure AnimeTranslationRow where
  animeId : Val
  translationId : Val
  episodesAvailable : Val
  lastEpisode : Val
deriving Repr

/-- `AnimeRepository.upsert_translation`: the guard is
`if not data or not data.get("id"): return`; otherwise insert with
`ON CONFLICT (id) DO UPDATE SET title, type`. -/
def upsertTranslation (tbl : List TranslationRow) (data : Val) :
    List TranslationRow :=
  if !data.truthy then tbl
  else if !(data.get "id").truthy then tbl
  else
    let row : TranslationRow :=
      { id := data.get "id", title := data.get "title", type := data.get "type" }
    if tbl.any (fun r => Val.beq r.id row.id) then
      tbl.map (fun r =>
        if Val.beq r.id row.id then
          { r with title := row.title, type := row.type }
        else r)
    else tbl ++ [row]

/-- `AnimeRepository.upsert_anime_translation`: the guard is
`if not data or not data.get("anime_id") or not data.get("translation_id")`;
otherwise insert with `ON CONFLICT (anime_id, translation_id) DO UPDATE`. -/
def upsertAnimeTranslation (tbl : List AnimeTranslationRow) (data : Val) :
    List AnimeTranslationRow :=
  if !data.truthy then tbl
  else if !(data.get "anime_id").truthy then tbl
  else if !(data.get "translation_id").truthy then tbl
  else
    let row : AnimeTranslationRow :=
      { animeId := data.get "anime_id"
        translationId := data.get "translation_id"
        episodesAvailable := data.get "episodes_available"
        lastEpisode := data.get "last_episode" }
    if tbl.any (fun r =>
        Val.beq r.animeId row.animeId &&
          Val.beq r.translationId row.translationId) then
      tbl.map (fun r =>
        if Val.beq r.animeId row.animeId &&
            Val.beq r.translationId row.translationId then
          { r with episodesAvailable := row.episodesAvailable,
                   lastEpisode := row.lastEpisode }
        else r)
    else tbl ++ [row]

/-! ## Ingest batch persistence (`app/services/ingest.py`)

`ingest_items` opens one `session.begin()` transaction for the whole batch
and `_persist_bundles` loops over bundles with a per-bundle `try/except` —
but no savepoint (`begin_nested`) is ever opened.  Under PostgreSQL a failed
statement aborts the enclosing transaction: every later statement fails with
`InFailedSqlTransaction` until a rollback, and the final commit fails.  The
session model below carries that aborted flag. -/

/-- One SQL statement issued while persisting a bundle: `ok` succeeds,
`bad` raises a database error (e.g. an episode row whose `translation_id`
has no parent `translation` row). -/
inductive PWrite where
  | ok (tag : String)
  | bad (tag : String)
deriving DecidableEq, Repr

/-- The shared session: statements applied so far and whether the
enclosing transaction has been aborted by a failed statement. -/
structure Sess where
  writes : List String
  aborted : Bool
deriving DecidableEq, Repr

/-- Execute one statement on the session: inside an aborted transaction
every statement fails; a `bad` statement fails and aborts the transaction. -/
def execW (s : Sess) (w : PWrite) : Sess × Option String :=
  if s.aborted then (s, some "current transaction is aborted")
  else
    match w with
    | .ok tag => ({ s with writes := s.writes ++ [tag] }, none)
    | .bad tag => ({ s with aborted := true }, some tag)

/-- `_persist_bundle_with_repo`: issue the bundle's statements in order;
the first exception propagates. -/
def persistBundle : Sess → List PWrite → Sess × Option String
  | s, [] => (s, none)
  | s, w :: ws =>
    match execW s w with
    | (s2, none) => persistBundle s2 ws
    | (s2, some e) => (s2, some e)

/-- The `IngestStats` counters touched by the persistence loop. -/
structure IngestStatsM where
  successful : Nat
  failed : Nat
  errors : List (String × String)
deriving DecidableEq, Repr

/-- `_persist_bundles`: per-bundle `try/except` — a failure is recorded in
the stats and the loop continues with the next bundle, on the same session. -/
def persistBundles : Sess → List (String × List PWrite) → IngestStatsM →
    Sess × IngestStatsM
  | s, [], st => (s, st)
  | s, (animeId, ws) :: rest, st =>
    match persistBundle s ws with
    | (s2, none) =>
      persistBundles s2 rest { st with successful := st.successful + 1 }
    | (s2, some e) =>
      persistBundles s2 rest
        { st with failed := st.failed + 1, errors := st.errors ++ [(animeId, e)] }

/-- Leaving `async with session.begin()`: commit the transaction, which
fails (rolling everything back) when the transaction is aborted. -/
def commitSess (s : Sess) : Except String (List String) :=
  if s.aborted then .error "PendingRollbackError" else .ok s.writes

/-- The persistence phase of `ingest_items` on an already-normalized batch:
one transaction around `_persist_bundles`, then the implicit commit. -/
def ingestPersistPhase (bundles : List (String × List PWrite)) :
    Except String (List String) × IngestStatsM :=
  let out := persistBundles { writes := [], aborted := false } bundles
    { successful := 0, failed := 0, errors := [] }
  (commitSess out.1, out.2)

/-! ## Downloader error mapping (`app/services/downloader.py`,
`app/integrations/kodik.py`) -/

/-- `DownloadErrorType`. -/
inductive DownloadErrorTypeM where
  | ffmpegNotFound
  | ffmpegFailed
  | ffmpegTimeout
  | fileNotCreated
  | fileEmpty
  | fileTooSmall
  | kodikError
  | invalidInput
deriving DecidableEq, Repr

/-- `KodikError` subclasses raised by the catalog client. -/
inductive KodikErrM where
  | notFound
  | network
  | rateLimit
deriving DecidableEq, Repr

/-- `ExternalIdType` priority order used by `ExternalId.from_dict`. -/
def EXTERNAL_ID_KEYS : List String := ["shikimori", "kinopoisk", "imdb"]

/-- `ExternalId.from_dict`: the first key with a truthy value wins
(keeping `str(val)`); with none it raises `KodikNotFoundError` (`none`). -/
def externalIdFromDict (ids : Val) : Option (String × String) :=
  match EXTERNAL_ID_KEYS.find? (fun k => (ids.get k).truthy) with
  | some k => some ((ids.get k).pyStr, k)
  | none => none

/-- Outcome of one ffmpeg subprocess run. -/
inductive FfmpegRes where
  | success
  | failed (returncode : Int)
  | timedOut
deriving DecidableEq, Repr

/-- The collaborators `Downloader.download` consults: the catalog playlist
resolution (as the final outcome of `get_episode_m3u8`'s retried inner
call), the muxer run, and the size of the file it leaves behind (`none` if
no file was created). -/
structure DownloadEnvM where
  m3u8 : String → String → Int → Int → Int → Except KodikErrM String
  ffmpeg : String → FfmpegRes
  fileSize : Option Nat

/-- `Downloader.MIN_FILE_SIZE` (100 KiB). -/
def MIN_FILE_SIZE : Nat := 1024 * 100

/-- `KodikClient.get_episode_m3u8`: `ExternalId.from_dict` then the
playlist lookup. -/
def getEpisodeM3u8 (env : DownloadEnvM) (ids : Val)
    (translationId episodeNum quality : Int) : Except KodikErrM String :=
  match externalIdFromDict ids with
  | none => .error .notFound
  | some (v, t) => env.m3u8 v t translationId episodeNum quality

/-- `Downloader._get_m3u8`: every `KodikError` — `KodikNotFoundError`
included — is wrapped as a `DownloadError` of type `KODIK_ERROR`. -/
def downloaderGetM3u8 (env : DownloadEnvM) (ids : Val)
    (translationId episodeNum quality : Int) :
    Except DownloadErrorTypeM String :=
  match getEpisodeM3u8 env ids translationId episodeNum quality with
  | .ok url => .ok url
  | .error _ => .error .kodikError

/-- `Downloader.download`: `DownloadRequest.__post_init__` validation, then
`_get_m3u8`, `_run_ffmpeg` and `_validate_and_get_result`.  The result is
the validated file size. -/
def downloadRun (env : DownloadEnvM) (ids : Val)
    (translationId episodeNum quality : Int) :
    Except DownloadErrorTypeM Nat :=
  if !ids.truthy then .error .invalidInput
  else if translationId ≤ 0 then .error .invalidInput
  else if episodeNum ≤ 0 then .error .invalidInput
  else
    match downloaderGetM3u8 env ids translationId episodeNum quality with
    | .error e => .error e
    | .ok url =>
      match env.ffmpeg url with
      | .timedOut => .error .ffmpegTimeout
      | .failed _ => .error .ffmpegFailed
      | .success =>
        match env.fileSize with
        | none => .error .fileNotCreated
        | some 0 => .error .fileEmpty
        | some size =>
          if size < MIN_FILE_SIZE then .error .fileTooSmall
          else .ok size

/-! ## `retry_async` (`app/common/async_utils.py`) and the publish
worker's use of it (`app/workers/upload_worker.py`) -/

/-- An exception escaping the downloader call inside `_process_episode`:
either a typed `DownloadError` or some other exception class. -/
inductive WorkerExcM where
  | download (t : DownloadErrorTypeM)
  | other (msg : String)
deriving DecidableEq, Repr

/-- What one `retry_async` invocation did: the final outcome (`.error none`
is the degenerate `raise last_error` with no attempt made), how many times
`func` was awaited, and the sleeps between attempts. -/
structure RetryTrace (T : Type) where
  result : Except (Option WorkerExcM) T
  attemptsMade : Nat
  sleeps : List ℚ
deriving Repr

/-- The `for attempt in range(1, max_retries + 1)` loop of `retry_async`:
exceptions matching `exceptions` are swallowed and retried after
`current_delay` (which then grows by `backoff`, capped at `max_delay`);
a non-matching exception propagates at once; after the last matching
failure `last_error` is re-raised. -/
def retryGo (T : Type) (f : Nat → Except WorkerExcM T)
    (catches : WorkerExcM → Bool) (backoff maxDelay : ℚ) :
    Nat → Nat → ℚ → List ℚ → RetryTrace T
  | _, 0, _, sleeps => { result := .error none, attemptsMade := 0, sleeps := sleeps }
  | attempt, remaining + 1, curDelay, sleeps =>
    match f attempt with
    | .ok v =>
      { result := .ok v, attemptsMade := attempt, sleeps := sleeps }
    | .error e =>
      if catches e then
        if remaining = 0 then
          { result := .error (some e), attemptsMade := attempt, sleeps := sleeps }
        else
          retryGo T f catches backoff maxDelay (attempt + 1) remaining
            (min (curDelay * backoff) maxDelay) (sleeps ++ [curDelay])
      else
        { result := .error (some e), attemptsMade := attempt, sleeps := sleeps }

/-- `retry_async(func, max_retries, delay, backoff, max_delay, exceptions)`. -/
def retryAsync (T : Type) (f : Nat → Except WorkerExcM T) (maxRetries : Nat)
    (delay backoff maxDelay : ℚ) (catches : WorkerExcM → Bool) : RetryTrace T :=
  retryGo T f catches backoff maxDelay 1 maxRetries delay []

/-- The exception filter `_process_episode` passes to `retry_async`:
`exceptions=(DownloadError,)` — every `DownloadError`, whatever its
`error_type`. -/
def workerCatches : WorkerExcM → Bool
  | .download _ => true
  | .other _ => false

/-- `_process_episode`'s retried download:
`retry_async(self._download_episode, ep, ids, max_retries=self._max_retries,
delay=2.0, exceptions=(DownloadError,))` with the remaining `retry_async`
defaults `backoff=2.0`, `max_delay=30.0`. -/
def workerDownloadWithRetry (T : Type) (f : Nat → Except WorkerExcM T)
    (maxRetries : Nat) : RetryTrace T :=
  retryAsync T f maxRetries 2 2 30 workerCatches

/-! ## Concrete scenario inputs and invariants -/

/-- The literal dict of testable-properties scenario 1. -/
def scenario1Raw : Val :=
  .obj
    [("id", .str "kodik123"),
     ("title", .str "Тайтл"),
     ("title_orig", .str "Title"),
     ("translation",
       .obj [("id", .int 10), ("title", .str "Test"), ("type", .str "voice")]),
     ("year", .int 2024),
     ("last_episode", .int 2),
     ("material_data",
       .obj [("poster_url", .str "https://example.com/poster.jpg"),
             ("description", .str "desc"),
             ("genres", .arr [.str "action"]),
             ("other_titles", .arr [.str "Alt"])]),
     ("additional_data", .obj [("episodes_count", .int 2)]),
     ("shikimori_id", .int 1)]

/-- A dict input carrying a non-empty `seasons` map with two episodes while
`last_episode` says five. -/
def seasonsDictRaw : Val :=
  .obj
    [("id", .str "x"),
     ("translation", .obj [("id", .int 1)]),
     ("seasons", .obj [("1", .obj [("1", .obj []), ("2", .obj [])])]),
     ("last_episode", .int 5)]

/-- A `Response.Element` whose `raw_data.seasons` has integer keys `1`, `2`,
a non-integer key `x`, and a second season spelled `01` (parsed as season 1
again), with `last_episode = 5`. -/
def seasonsElement : KodikElement :=
  { id := .str "e1", title := .null, titleOrig := .null, year := .null,
    lastEpisode := .int 5, episodesCount := .null,
    shikimoriId := .null, kinopoiskId := .null, imdbId := .null,
    translation := .obj [("id", .int 7)],
    rawData :=
      .obj [("seasons",
        .obj [("1", .obj [("1", .obj []), ("2", .obj []), ("x", .obj [])]),
              ("01", .obj [("2", .obj [])])])],
    materialData := .obj [] }

/-- A `Response.Element` whose `seasons` map is non-empty but yields no
integer-keyed episodes, with `episodes_count = 2`. -/
def emptySeasonsElement : KodikElement :=
  { id := .str "e2", title := .null, titleOrig := .null, year := .null,
    lastEpisode := .null, episodesCount := .int 2,
    shikimoriId := .null, kinopoiskId := .null, imdbId := .null,
    translation := .obj [("id", .int 7)],
    rawData := .obj [("seasons", .obj [("1", .obj [("x", .obj [])])])],
    materialData := .obj [] }

/-- Delta scenario page 1: newer than the cutoff `"2024-01-01"`. -/
def deltaPage1 : List CatalogItem := [{ name := "a", updatedAt := some "2024-03-01" }]

/-- Delta scenario page 2: one newer item, then the oldest item, older than
the cutoff. -/
def deltaPage2 : List CatalogItem :=
  [{ name := "b", updatedAt := some "2024-02-01" },
   { name := "c", updatedAt := some "2023-12-01" }]

/-- A third page behind page 2 (the feed keeps a cursor after page 2). -/
def deltaPage3 : List CatalogItem := [{ name := "d", updatedAt := some "2023-11-01" }]

/-- The three-page feed (identical whatever the page size). -/
def deltaFeed : PagedFeed := fun _ => [deltaPage1, deltaPage2, deltaPage3]

/-- A benign downloader environment: playlist resolves, ffmpeg succeeds and
leaves a 1 MiB file. -/
def envTrivial : DownloadEnvM :=
  { m3u8 := fun _ _ _ _ _ => .ok "https://cloud.kodik-storage.com/ep.m3u8",
    ffmpeg := fun _ => .success,
    fileSize := some (1024 * 1024) }

/-- A non-empty external-id dict with no truthy id. -/
def noTruthyIds : Val := .obj [("shikimori", .null)]

/-- Per-pair ordering invariant of the upload queue: the processing log
followed by the backlog is exactly the enqueue history, recorded message ids
are strictly increasing within the pair, and all recorded ids are below the
backend counter. -/
def QInvariant (s : QueueState) : Prop :=
  (∀ k, (s.processed k).map Prod.fst ++ s.pending k = s.enqueued k) ∧
  (∀ k, List.Chain' (· < ·) (recordedIds s k)) ∧
  (∀ k n, n ∈ recordedIds s k → n < s.nextMsgId)

/-- Lock invariant of `RateLimiter.acquire`: every caller between the
`async with self._lock` entry and the token grant — the refill/check point
and the `asyncio.sleep` suspension included — holds the mutex. -/
def RLLockInvariant (s : RLState) : Prop :=
  ∀ i, (s.pc i = .refillCheck ∨ s.pc i = .sleeping) → s.lockHeld = some i

/-! ## Helper lemmas -/

theorem find?_filter_not_seasons (kvs : List (String × Val)) (k : String)
    (hk : k ≠ "seasons") :
    (kvs.filter (fun p => !(p.1 == "seasons"))).find? (fun p => p.1 == k) =
      kvs.find? (fun p => p.1 == k) := by
  induction kvs with
  | nil => rfl
  | cons p rest ih =>
    by_cases hp : p.1 = "seasons"
    · have hkeep : (!(p.1 == "seasons")) = false := by simp [hp]
      have hmatch : (p.1 == k) = false := by
        simp [hp]
        exact fun hcontra => hk hcontra.symm
      simp [List.filter_cons, hkeep, List.find?_cons, hmatch, ih]
    · have hkeep : (!(p.1 == "seasons")) = true := by simp [hp]
      by_cases hm : p.1 = k
      · have hmatch : (p.1 == k) = true := by simp [hm]
        simp [List.filter_cons, hkeep, List.find?_cons, hmatch]
      · have hmatch : (p.1 == k) = false := by simp [hm]
        simp [List.filter_cons, hkeep, List.find?_cons, hmatch, ih]

theorem get_filter_not_seasons (kvs : List (String × Val)) (k : String)
    (hk : k ≠ "seasons") :
    Val.get (.obj (kvs.filter (fun p => !(p.1 == "seasons")))) k =
      Val.get (.obj kvs) k := by
  simp only [Val.get, find?_filter_not_seasons kvs k hk]

theorem fetchPagesAux_none_eq :
    ∀ (pages : List (List CatalogItem)) (c : Nat), pages ≠ [] →
      fetchPagesAux none pages c = (pages.flatten, c + pages.length) := by
  intro pages
  induction pages with
  | nil => intro c h; exact absurd rfl h
  | cons b rest ih =>
    intro c _
    cases rest with
    | nil => simp [fetchPagesAux]
    | cons b2 rest2 =>
      have hne : b2 :: rest2 ≠ [] := by simp
      have hstep : fetchPagesAux none (b :: b2 :: rest2) c =
          (b ++ (fetchPagesAux none (b2 :: rest2) (c + 1)).1,
            (fetchPagesAux none (b2 :: rest2) (c + 1)).2) := rfl
      rw [hstep, ih (c + 1) hne]
      refine congrArg₂ Prod.mk ?_ ?_
      · simp
      · simp
        omega

theorem retryGo_const_caught (T : Type) (e : WorkerExcM)
    (catches : WorkerExcM → Bool) (hc : catches e = true) (b m : ℚ) :
    ∀ (rem attempt : Nat) (delay : ℚ) (sleeps : List ℚ), 1 ≤ rem →
      (retryGo T (fun _ => .error e) catches b m attempt rem delay sleeps).result
          = .error (some e) ∧
        (retryGo T (fun _ => .error e) catches b m attempt rem delay
            sleeps).attemptsMade = attempt + (rem - 1) := by
  intro rem
  induction rem with
  | zero => intro attempt delay sleeps h; omega
  | succ r ih =>
    intro attempt delay sleeps _
    cases r with
    | zero => simp [retryGo, hc]
    | succ r2 =>
      have hr : (r2 + 1 = 0) = False := by simp
      have := ih (attempt + 1) (min (delay * b) m) (sleeps ++ [delay]) (by omega)
      simp only [retryGo, hc, if_true, hr, if_false] at this ⊢
      refine ⟨this.1, ?_⟩
      rw [this.2]
      omega

/-! ## Claim theorems -/

/-- C9 (counterexample): on the literal scenario-1 dict, the retained
external id is the original integer `1`, not the string `"1"` the claim
asserts — `_build_anime_dict` filters by truthiness without converting. -/
theorem scenario1_externalIds_not_string :
    (normalizeKodikItem (.dict scenario1Raw)).map (fun b => b.anime.externalIds)
        = some [("shikimori", Val.int 1)] ∧
      some [("shikimori", Val.int 1)] ≠ some [("shikimori", Val.str "1")] := by
  refine ⟨rfl, ?_⟩
  simp

/-- C9 (amended): on the literal scenario-1 dict, `normalize` yields work id
`"kodik123"`, translation id `10`, exactly the episodes `"kodik123:10:1"`
and `"kodik123:10:2"`, `"Alt"` among the alt titles, and external ids equal
to `{"shikimori": 1}` — the value kept as the integer it arrived as. -/
theorem scenario1_bundle :
    (normalizeKodikItem (.dict scenario1Raw)).map (fun b => b.anime.id)
        = some (.str "kodik123") ∧
      (normalizeKodikItem (.dict scenario1Raw)).map (fun b => b.translation.id)
        = some 10 ∧
      (normalizeKodikItem (.dict scenario1Raw)).map
          (fun b => b.episodes.map NormalizedEpisode.id)
        = some ["kodik123:10:1", "kodik123:10:2"] ∧
      (normalizeKodikItem (.dict scenario1Raw)).map (fun b => b.anime.altTitles)
        = some [Val.str "Alt"] ∧
      (normalizeKodikItem (.dict scenario1Raw)).map
          (fun b => b.anime.externalIds)
        = some [("shikimori", Val.int 1)] :=
  ⟨rfl, rfl, rfl, rfl, rfl⟩

/-- C6 (counterexample): a dict input with a non-empty two-episode `seasons`
map and `last_episode = 5` gets five synthesized episodes — `_normalize_dict`
never reads the map. -/
theorem normalizeDict_ignores_seasons_counterexample :
    (normalizeKodikItem (.dict seasonsDictRaw)).map
        (fun b => b.episodes.map (fun e => (e.season, e.number)))
        = some [(1, 1), (1, 2), (1, 3), (1, 4), (1, 5)] ∧
      some [((1 : Int), (1 : Int)), (1, 2), (1, 3), (1, 4), (1, 5)]
        ≠ some [((1 : Int), (1 : Int)), (1, 2)] := by
  refine ⟨rfl, ?_⟩
  simp

/-- C6 (amended): the seasons-map extraction lives only on the
`Response.Element` path.  (1) The dict path is blind to `seasons`: deleting
every `seasons` binding from a raw dict leaves `normalize` unchanged, so
dict inputs always synthesize `1..episodes_total`.  (2) On the element path
the map drives the episodes: integer-parseable keys only, non-integer keys
silently skipped, and a duplicate (season, number) — here seasons `"1"` and
`"01"` — is retained twice rather than last-write-wins, with no synthesis
even though `last_episode = 5`.  (3) Synthesis is the element-path fallback
once the walk yields no episodes and the total is known. -/
theorem episodes_seasons_path :
    (∀ kvs : List (String × Val),
      normalizeDict (.obj (kvs.filter (fun p => !(p.1 == "seasons"))))
        = normalizeDict (.obj kvs)) ∧
    ((normalizeKodikItem (.element seasonsElement)).map
        (fun b => b.episodes.map (fun e => (e.season, e.number)))
        = some [(1, 1), (1, 2), (1, 2)]) ∧
    ((normalizeKodikItem (.element emptySeasonsElement)).map
        (fun b => b.episodes.map (fun e => (e.season, e.number)))
        = some [(1, 1), (1, 2)]) := by
  refine ⟨?_, rfl, rfl⟩
  intro kvs
  unfold normalizeDict
  rw [get_filter_not_seasons kvs "id" (by decide),
    get_filter_not_seasons kvs "kodik_id" (by decide),
    get_filter_not_seasons kvs "link" (by decide),
    get_filter_not_seasons kvs "translation" (by decide),
    get_filter_not_seasons kvs "material_data" (by decide),
    get_filter_not_seasons kvs "additional_data" (by decide),
    get_filter_not_seasons kvs "last_episode" (by decide),
    get_filter_not_seasons kvs "title" (by decide),
    get_filter_not_seasons kvs "title_orig" (by decide),
    get_filter_not_seasons kvs "year" (by decide),
    get_filter_not_seasons kvs "shikimori_id" (by decide),
    get_filter_not_seasons kvs "kinopoisk_id" (by decide),
    get_filter_not_seasons kvs "imdb_id" (by decide)]

/-- C3 (code evaluated at the failing input): the translation dict the
normalizer emits for an unknown translation — id `0`, the documented
sentinel — is silently dropped by `upsert_translation`'s falsy guard, and
the id-0 link is likewise dropped by `upsert_anime_translation`, while an
id-10 row is persisted; the spec requires the id-0 rows to be persisted. -/
theorem upsert_drops_id0_sentinel :
    upsertTranslation []
        (.obj [("id", .int 0), ("title", .null), ("type", .null)]) = [] ∧
      upsertAnimeTranslation []
        (.obj [("anime_id", .str "kodik123"), ("translation_id", .int 0),
               ("episodes_available", .int 2), ("last_episode", .int 2)]) = [] ∧
      (upsertTranslation []
        (.obj [("id", .int 10), ("title", .str "Test"),
               ("type", .str "voice")])).length = 1 :=
  ⟨rfl, rfl, rfl⟩

/-- C4 (code evaluated at the failing input): with no per-bundle savepoint,
the first bundle's failed statement aborts the shared transaction: the
second bundle's statements fail with `InFailedSqlTransaction`
(`failed = 2`, `successful = 0`) and the final commit raises, so nothing in
the batch is persisted — the claim's isolation does not hold. -/
theorem ingest_batch_poisoned_by_db_error :
    ingestPersistPhase
        [("A", [.ok "A:translation", .bad "A:episode"]),
         ("B", [.ok "B:translation"])] =
      (.error "PendingRollbackError",
        { successful := 0, failed := 2,
          errors := [("A", "A:episode"),
                     ("B", "current transaction is aborted")] }) := rfl

/-- C7 (counterexample): with a non-empty external-id dict holding no
truthy id, `download` surfaces the catalog `NotFound` as a `DownloadError`
of type `KODIK_ERROR` — the generic catalog type — not `INVALID_INPUT`. -/
theorem download_notfound_maps_to_kodikError :
    downloadRun envTrivial noTruthyIds 610 1 720 = .error .kodikError ∧
      DownloadErrorTypeM.kodikError ≠ DownloadErrorTypeM.invalidInput := by
  refine ⟨rfl, ?_⟩
  simp

/-- C7 (amended): whenever the id dict is non-empty but none of
shikimori/kinopoisk/imdb is truthy (and the ids pass request validation),
`download` fails with error type `KODIK_ERROR`, because `_get_m3u8` wraps
every `KodikError` — `KodikNotFoundError` included — as `KODIK_ERROR`;
`INVALID_INPUT` arises only from `DownloadRequest` validation, e.g. an
empty external-id dict. -/
theorem download_error_mapping :
    (∀ (env : DownloadEnvM) (ids : Val) (tid ep q : Int),
      ids.truthy = true → 0 < tid → 0 < ep →
      (∀ k ∈ EXTERNAL_ID_KEYS, ((ids.get k).truthy) = false) →
      downloadRun env ids tid ep q = .error .kodikError) ∧
    (∀ (env : DownloadEnvM) (tid ep q : Int),
      downloadRun env (.obj []) tid ep q = .error .invalidInput) := by
  constructor
  · intro env ids tid ep q htr htid hep hkeys
    have h1 : ((ids.get "shikimori").truthy) = false :=
      hkeys _ (by simp [EXTERNAL_ID_KEYS])
    have h2 : ((ids.get "kinopoisk").truthy) = false :=
      hkeys _ (by simp [EXTERNAL_ID_KEYS])
    have h3 : ((ids.get "imdb").truthy) = false :=
      hkeys _ (by simp [EXTERNAL_ID_KEYS])
    have htid2 : ¬(tid ≤ 0) := by omega
    have hep2 : ¬(ep ≤ 0) := by omega
    simp [downloadRun, downloaderGetM3u8, getEpisodeM3u8, externalIdFromDict,
      EXTERNAL_ID_KEYS, List.find?, htr, h1, h2, h3, htid2, hep2]
  · intro env tid ep q
    rfl

/-- C8 (counterexample): a persistent `DownloadError` of the non-transient
subtype `INVALID_INPUT` is retried the full `max_retries = 3` attempts with
backoff sleeps `[2, 4]`, not surfaced after the first attempt. -/
theorem worker_retries_invalidInput :
    (workerDownloadWithRetry Unit
        (fun _ => .error (.download .invalidInput)) 3).attemptsMade = 3 ∧
      (workerDownloadWithRetry Unit
        (fun _ => .error (.download .invalidInput)) 3).sleeps = [2, 4] ∧
      (3 : Nat) ≠ 1 := by
  refine ⟨rfl, ?_, by decide⟩
  show [(2 : ℚ), min (2 * 2) 30] = [2, 4]
  norm_num

/-- C8 (amended): `_process_episode` passes `exceptions=(DownloadError,)`,
so the download is retried (with exponential backoff) on every
`DownloadError` whatever its subtype — a persistently failing download of
any subtype consumes all `max_retries` attempts — while only exceptions
that are not `DownloadError`s surface after the first attempt. -/
theorem worker_retry_filter :
    (∀ (t : DownloadErrorTypeM) (n : Nat), 1 ≤ n →
      (workerDownloadWithRetry Unit (fun _ => .error (.download t)) n).result
          = .error (some (.download t)) ∧
        (workerDownloadWithRetry Unit
          (fun _ => .error (.download t)) n).attemptsMade = n) ∧
    (∀ (msg : String) (n : Nat), 1 ≤ n →
      (workerDownloadWithRetry Unit (fun _ => .error (.other msg)) n).result
          = .error (some (.other msg)) ∧
        (workerDownloadWithRetry Unit
          (fun _ => .error (.other msg)) n).attemptsMade = 1) := by
  constructor
  · intro t n hn
    unfold workerDownloadWithRetry retryAsync
    have := retryGo_const_caught Unit (.download t) workerCatches rfl 2 30 n 1
      2 [] hn
    refine ⟨this.1, ?_⟩
    rw [this.2]
    omega
  · intro msg n hn
    cases n with
    | zero => omega
    | succ r =>
      simp [workerDownloadWithRetry, retryAsync, retryGo, workerCatches]

/-- C8 (witness). -/
theorem worker_retry_filter_witness :
    (1 ≤ 3 ∧
      ((workerDownloadWithRetry Unit
          (fun _ => .error (.download .fileTooSmall)) 3).result
          = .error (some (.download .fileTooSmall)) ∧
        (workerDownloadWithRetry Unit
          (fun _ => .error (.download .fileTooSmall)) 3).attemptsMade = 3)) ∧
    (1 ≤ 2 ∧
      ((workerDownloadWithRetry Unit
          (fun _ => .error (.other "AttributeError")) 2).result
          = .error (some (.other "AttributeError")) ∧
        (workerDownloadWithRetry Unit
          (fun _ => .error (.other "AttributeError")) 2).attemptsMade = 1)) :=
  ⟨⟨by decide, worker_retry_filter.1 .fileTooSmall 3 (by decide)⟩,
   ⟨by decide, worker_retry_filter.2 "AttributeError" 2 (by decide)⟩⟩

/-- C7 (witness). -/
theorem download_error_mapping_witness :
    (noTruthyIds.truthy = true ∧ (0 : Int) < 610 ∧ (0 : Int) < 1 ∧
      (∀ k ∈ EXTERNAL_ID_KEYS, ((noTruthyIds.get k).truthy) = false)) ∧
    downloadRun envTrivial noTruthyIds 610 1 720 = .error .kodikError ∧
    downloadRun envTrivial (.obj []) 610 1 720 = .error .invalidInput :=
  ⟨⟨rfl, by decide, by decide, by decide⟩,
   download_error_mapping.1 envTrivial noTruthyIds 610 1 720 rfl (by decide)
     (by decide) (by decide),
   download_error_mapping.2 envTrivial 610 1 720⟩

/-- C2 (counterexample): on the three-page feed whose page-1 item is newer
than the cutoff and whose page-2 oldest item is older, `fetch_delta` with
unbounded `max_pages` fetches all three pages — it does not stop after the
first stale item — while returning the filtered items. -/
theorem fetchDelta_fetches_beyond_page2 :
    fetchDelta deltaFeed "2024-01-01" 50 none =
      ([{ name := "a", updatedAt := some "2024-03-01" },
        { name := "b", updatedAt := some "2024-02-01" }], 3) ∧
      ¬((3 : Nat) ≤ 2) := by
  refine ⟨rfl, by decide⟩

/-- C2 (amended): `fetch_delta` performs no short-circuit: it pages the
whole feed (all pages when `max_pages` is unbounded) and filters
client-side, returning exactly the items — from every page — whose
`updated_at` is at or after the cutoff; under the scenario hypothesis that
every page-1 item is at or after the cutoff this is page 1 together with
the qualifying later-page items, and the number of pages fetched is the
full page count, not 2. -/
theorem fetchDelta_clientSide_filter (p1 : List CatalogItem)
    (rest : List (List CatalogItem)) (cutoff : String) (limit : Int)
    (h : ∀ it ∈ p1, pyStrLe cutoff (getUpdatedAt it) = true) :
    fetchDelta (fun _ => p1 :: rest) cutoff limit none =
      (p1 ++ rest.flatten.filter (fun it => pyStrLe cutoff (getUpdatedAt it)),
        1 + rest.length) := by
  unfold fetchDelta fetchFullList
  rw [fetchPagesAux_none_eq (p1 :: rest) 0 (by simp)]
  refine congrArg₂ Prod.mk ?_ ?_
  · rw [List.flatten_cons, List.filter_append, List.filter_eq_self.mpr h]
  · simp
    omega

/-- C2 (witness). -/
theorem fetchDelta_clientSide_filter_witness :
    (∀ it ∈ deltaPage1, pyStrLe "2024-01-01" (getUpdatedAt it) = true) ∧
    fetchDelta (fun _ => deltaPage1 :: [deltaPage2, deltaPage3]) "2024-01-01"
        50 none =
      (deltaPage1 ++
        ([deltaPage2, deltaPage3].flatten.filter
          (fun it => pyStrLe "2024-01-01" (getUpdatedAt it))),
        1 + [deltaPage2, deltaPage3].length) :=
  ⟨by decide,
   fetchDelta_clientSide_filter deltaPage1 [deltaPage2, deltaPage3]
     "2024-01-01" 50 (by decide)⟩

/-- C10 (confirmed): `fetch_full_list` clamps the page size with
`max(1, min(100, limit_per_page))` before the first request, which
coincides with `min(100, max(1, limit_per_page))` — so any out-of-range
integer behaves exactly as its clamped value and no input is rejected. -/
theorem fetchFullList_clamps_page_size (server : PagedFeed) (limit : Int)
    (maxPages : Option Nat) :
    fetchFullList server limit maxPages
      = fetchFullList server (min 100 (max 1 limit)) maxPages := by
  unfold fetchFullList
  have h : max 1 (min 100 limit) = max 1 (min 100 (min 100 (max 1 limit))) := by
    omega
  rw [h]

theorem qInvariant_preserved (s1 s2 : QueueState) (hstep : QStep s1 s2)
    (ih : QInvariant s1) : QInvariant s2 := by
  obtain ⟨ih1, ih2, ih3⟩ := ih
  cases hstep with
  | enqueue k t =>
    refine ⟨fun k2 => ?_, fun k2 => ih2 k2, fun k2 n hn => ih3 k2 n hn⟩
    dsimp only
    split_ifs with hk
    · subst hk
      rw [← List.append_assoc, ih1 k2]
    · exact ih1 k2
  | processOk k t rest hq =>
    refine ⟨fun k2 => ?_, fun k2 => ?_, fun k2 n hn => ?_⟩
    · dsimp only
      split_ifs with hk
      · subst hk
        rw [List.map_append, List.append_assoc]
        simp only [List.map_cons, List.map_nil, List.singleton_append]
        rw [← hq]
        exact ih1 k2
      · exact ih1 k2
    · simp only [recordedIds]
      split_ifs with hk
      · subst hk
        rw [List.filterMap_append]
        refine List.chain'_append.mpr ⟨ih2 k2, ?_, ?_⟩
        · simp
        · intro x hx y hy
          obtain ⟨hne, hx2⟩ := List.mem_getLast?_eq_getLast hx
          have hxmem : x ∈ recordedIds s1 k2 := by
            rw [hx2]
            exact List.getLast_mem hne
          have hy2 : y = s1.nextMsgId := by
            simp only [List.filterMap_cons, List.filterMap_nil] at hy
            have := hy
            simp at this
            omega
          rw [hy2]
          exact ih3 k2 x hxmem
      · exact ih2 k2
    · show n < s1.nextMsgId + 1
      simp only [recordedIds] at hn
      split_ifs at hn with hk
      · rw [List.filterMap_append] at hn
        rcases List.mem_append.mp hn with hl | hr
        · exact Nat.lt_succ_of_lt (ih3 k n hl)
        · have h2 : n = s1.nextMsgId := by
            simp only [List.filterMap_cons, List.filterMap_nil] at hr
            simpa using hr
          rw [h2]
          exact Nat.lt_succ_self _
      · exact Nat.lt_succ_of_lt (ih3 k2 n hn)
  | processFailAfterSend k t rest hq =>
    refine ⟨fun k2 => ?_, fun k2 => ?_, fun k2 n hn => ?_⟩
    · dsimp only
      split_ifs with hk
      · subst hk
        rw [List.map_append, List.append_assoc]
        simp only [List.map_cons, List.map_nil, List.singleton_append]
        rw [← hq]
        exact ih1 k2
      · exact ih1 k2
    · simp only [recordedIds]
      split_ifs with hk
      · subst hk
        rw [List.filterMap_append]
        have h0 : List.filterMap Prod.snd [((t, none) : UploadTaskM × Option Nat)] = [] := rfl
        rw [h0, List.append_nil]
        exact ih2 k2
      · exact ih2 k2
    · show n < s1.nextMsgId + 1
      simp only [recordedIds] at hn
      split_ifs at hn with hk
      · rw [List.filterMap_append] at hn
        have h0 : List.filterMap Prod.snd [((t, none) : UploadTaskM × Option Nat)] = [] := rfl
        rw [h0, List.append_nil] at hn
        exact Nat.lt_succ_of_lt (ih3 k n hn)
      · exact Nat.lt_succ_of_lt (ih3 k2 n hn)
  | processFailBeforeSend k t rest hq =>
    refine ⟨fun k2 => ?_, fun k2 => ?_, fun k2 n hn => ?_⟩
    · dsimp only
      split_ifs with hk
      · subst hk
        rw [List.map_append, List.append_assoc]
        simp only [List.map_cons, List.map_nil, List.singleton_append]
        rw [← hq]
        exact ih1 k2
      · exact ih1 k2
    · simp only [recordedIds]
      split_ifs with hk
      · subst hk
        rw [List.filterMap_append]
        have h0 : List.filterMap Prod.snd [((t, none) : UploadTaskM × Option Nat)] = [] := rfl
        rw [h0, List.append_nil]
        exact ih2 k2
      · exact ih2 k2
    · show n < s1.nextMsgId
      simp only [recordedIds] at hn
      split_ifs at hn with hk
      · rw [List.filterMap_append] at hn
        have h0 : List.filterMap Prod.snd [((t, none) : UploadTaskM × Option Nat)] = [] := rfl
        rw [h0, List.append_nil] at hn
        exact ih3 k n hn
      · exact ih3 k2 n hn

theorem qInvariant_of_reachable (s : QueueState) (h : QReachable s) :
    QInvariant s := by
  induction h with
  | refl =>
    refine ⟨fun k => rfl, fun k => List.chain'_nil, fun k n hn => ?_⟩
    simp [recordedIds, qInit] at hn
  | tail _ hstep ih => exact qInvariant_preserved _ _ hstep ih

/-- C1 (confirmed): in every reachable state of the ordered upload queue,
for each (work, translation) pair the processing log followed by the
backlog is exactly the enqueue history — tasks are processed strictly in
enqueue order — and the chat message ids recorded for the pair are strictly
increasing; and across two distinct pairs with non-empty backlogs either
pair's worker can take the next step without disturbing the other, so no
cross-pair ordering is imposed. -/
theorem uploadQueue_perPair_fifo_monotone (s : QueueState)
    (h : QReachable s) :
    ((∀ k, (s.processed k).map Prod.fst ++ s.pending k = s.enqueued k) ∧
      (∀ k, List.Chain' (· < ·) (recordedIds s k))) ∧
    (∀ k1 k2 t1 r1 t2 r2, k1 ≠ k2 →
      s.pending k1 = t1 :: r1 → s.pending k2 = t2 :: r2 →
      ∃ s2, QStep s s2 ∧
        s2.processed k1 = s.processed k1 ++ [(t1, some s.nextMsgId)] ∧
        s2.pending k1 = r1 ∧
        s2.pending k2 = t2 :: r2 ∧ s2.processed k2 = s.processed k2) := by
  obtain ⟨h1, h2, _⟩ := qInvariant_of_reachable s h
  refine ⟨⟨h1, h2⟩, ?_⟩
  intro k1 k2 t1 r1 t2 r2 hne hp1 hp2
  refine ⟨_, QStep.processOk s k1 t1 r1 hp1, ?_, ?_, ?_, ?_⟩
  · dsimp only
    rw [if_pos rfl]
  · dsimp only
    rw [if_pos rfl]
  · dsimp only
    rw [if_neg (Ne.symm hne), hp2]
  · dsimp only
    rw [if_neg (Ne.symm hne)]

/-- C1 (witness). -/
theorem uploadQueue_perPair_fifo_monotone_witness :
    QReachable qInit ∧
      (((∀ k, (qInit.processed k).map Prod.fst ++ qInit.pending k
            = qInit.enqueued k) ∧
        (∀ k, List.Chain' (· < ·) (recordedIds qInit k))) ∧
      (∀ k1 k2 t1 r1 t2 r2, k1 ≠ k2 →
        qInit.pending k1 = t1 :: r1 → qInit.pending k2 = t2 :: r2 →
        ∃ s2, QStep qInit s2 ∧
          s2.processed k1 = qInit.processed k1 ++ [(t1, some qInit.nextMsgId)] ∧
          s2.pending k1 = r1 ∧
          s2.pending k2 = t2 :: r2 ∧ s2.processed k2 = qInit.processed k2)) :=
  ⟨Relation.ReflTransGen.refl,
   uploadQueue_perPair_fifo_monotone qInit Relation.ReflTransGen.refl⟩

theorem rlLockInvariant_preserved (s1 s2 : RLState) (hstep : RLStep s1 s2)
    (ih : RLLockInvariant s1) : RLLockInvariant s2 := by
  cases hstep with
  | lock i hpc hfree =>
    intro j hj
    dsimp only at hj ⊢
    by_cases hji : j = i
    · rw [hji]
    · rw [if_neg hji] at hj
      have := ih j hj
      rw [hfree] at this
      exact absurd this (by simp)
  | checkPass i elapsed hpc hlock he hok =>
    intro j hj
    dsimp only at hj ⊢
    by_cases hji : j = i
    · subst hji
      rw [if_pos rfl] at hj
      rcases hj with hj | hj <;> exact absurd hj (by simp)
    · rw [if_neg hji] at hj
      have := ih j hj
      rw [hlock] at this
      exact absurd (Option.some.inj this).symm hji
  | checkSleep i elapsed hpc hlock he hlow =>
    intro j hj
    dsimp only at hj ⊢
    by_cases hji : j = i
    · subst hji
      exact hlock
    · rw [if_neg hji] at hj
      exact ih j hj
  | wake i hpc =>
    intro j hj
    dsimp only at hj ⊢
    by_cases hji : j = i
    · subst hji
      exact ih j (Or.inr hpc)
    · rw [if_neg hji] at hj
      exact ih j hj

theorem rlLockInvariant_of_reachable (rate capacity : ℚ) (s : RLState)
    (h : RLReachable rate capacity s) : RLLockInvariant s := by
  induction h with
  | refl =>
    intro j hj
    rcases hj with hj | hj <;> exact absurd hj (by simp [rlInit])
  | tail _ hstep ih => exact rlLockInvariant_preserved _ _ hstep ih

/-- C5 (counterexample): the claim that the mutex is never held at the
sleep suspension point is false: from a fresh limiter with `rate = 1`,
`capacity = 1`, one caller takes the token and a second caller reaches the
`asyncio.sleep` inside the `async with self._lock` block — a reachable
state whose sleeper holds the lock. -/
theorem acquire_sleeps_holding_lock :
    ∃ s, RLReachable 1 1 s ∧ s.pc 1 = RLPc.sleeping ∧ s.lockHeld = some 1 := by
  refine ⟨_, Relation.ReflTransGen.tail (Relation.ReflTransGen.tail
      (Relation.ReflTransGen.tail (Relation.ReflTransGen.tail
        Relation.ReflTransGen.refl
        (RLStep.lock (rlInit 1 1) 0 rfl rfl))
        (RLStep.checkPass _ 0 0 rfl rfl (le_refl 0)
          (by norm_num [rlRefill, rlInit])))
      (RLStep.lock _ 1 rfl rfl))
      (RLStep.checkSleep _ 1 0 rfl rfl (le_refl 0)
        (by norm_num [rlRefill, rlInit])), rfl, rfl⟩

/-- C5 (amended): in every interleaving of concurrent `acquire` calls, a
caller suspended in the refill sleep DOES hold the internal mutex — the
whole wait loop runs inside `async with self._lock`, serializing acquires
end to end — and from the sleep the only transition is back to the
refill-and-recheck of the token count. -/
theorem acquire_lock_held_during_sleep (rate capacity : ℚ) (s : RLState)
    (h : RLReachable rate capacity s) :
    (∀ i, s.pc i = RLPc.sleeping → s.lockHeld = some i) ∧
    (∀ s2 i, RLStep s s2 → s.pc i = RLPc.sleeping →
      s2.pc i = RLPc.sleeping ∨ s2.pc i = RLPc.refillCheck) := by
  constructor
  · intro i hi
    exact rlLockInvariant_of_reachable rate capacity s h i (Or.inr hi)
  · intro s2 i hstep hi
    cases hstep with
    | lock j hpc hfree =>
      dsimp only
      by_cases hji : i = j
      · rw [hji] at hi
        rw [hpc] at hi
        exact absurd hi (by simp)
      · rw [if_neg hji]
        exact Or.inl hi
    | checkPass j elapsed hpc hlock he hok =>
      dsimp only
      by_cases hji : i = j
      · rw [hji] at hi
        rw [hpc] at hi
        exact absurd hi (by simp)
      · rw [if_neg hji]
        exact Or.inl hi
    | checkSleep j elapsed hpc hlock he hlow =>
      dsimp only
      by_cases hji : i = j
      · rw [hji] at hi
        rw [hpc] at hi
        exact absurd hi (by simp)
      · rw [if_neg hji]
        exact Or.inl hi
    | wake j hpc =>
      dsimp only
      by_cases hji : i = j
      · rw [if_pos hji]
        exact Or.inr rfl
      · rw [if_neg hji]
        exact Or.inl hi

/-- C5 (witness). -/
theorem acquire_lock_held_during_sleep_witness :
    RLReachable 1 1 (rlInit 1 1) ∧
      ((∀ i, (rlInit 1 1).pc i = RLPc.sleeping →
          (rlInit 1 1).lockHeld = some i) ∧
        (∀ s2 i, RLStep (rlInit 1 1) s2 →
          (rlInit 1 1).pc i = RLPc.sleeping →
          s2.pc i = RLPc.sleeping ∨ s2.pc i = RLPc.refillCheck)) :=
  ⟨Relation.ReflTransGen.refl,
   acquire_lock_held_during_sleep 1 1 (rlInit 1 1) Relation.ReflTransGen.refl⟩
